import Mathlib

/-!
Shallow embedding of the claims-aging ETL engine in
`src/exclusive_report_with_aging_final.py`, and verification of the frozen
claims about it.

Money amounts are modelled as rationals (`ℚ`); pandas tables become lists of
row structures; table-level column presence becomes explicit `Bool` flags.
-/

namespace ExclusiveReport

/-! ## String helpers

Executable models of the Python string operations the engine uses:
`str.lower()` (line 68) and the code-point-wise string comparison that
pandas' default `groupby(sort=True)` applies to group keys (line 123). -/

/-- ASCII lower-casing of one character, as `str.lower()` acts on the
status values of interest. -/
def lowerChar (c : Char) : Char :=
  if 65 ≤ c.toNat ∧ c.toNat ≤ 90 then Char.ofNat (c.toNat + 32) else c

/-- `str.lower()` on a whole string. -/
def lowerString (s : String) : String := ⟨s.data.map lowerChar⟩

/-- Code-point lexicographic `≤` on character lists — Python's string
comparison, which pandas uses to sort group keys. -/
def charsLe : List Char → List Char → Bool
  | [], _ => true
  | _ :: _, [] => false
  | a :: as, b :: bs =>
    if a.toNat < b.toNat then true
    else if b.toNat < a.toNat then false
    else charsLe as bs

/-- Code-point lexicographic `≤` on strings. -/
def strLe (a b : String) : Bool := charsLe a.data b.data

/-! ## Loader / Normalizer (`ensure_numeric`, lines 45–56)

A cell of a required numeric column, as seen by
`pd.to_numeric(df[c], errors="coerce").fillna(0)`:
a numeric cell carries its value; a text cell carries its numeric
interpretation (`none` when `to_numeric` cannot parse it, which yields NaN);
`empty` is a missing cell (NaN). -/
inductive Cell where
  | num (q : ℚ)
  | text (interp : Option ℚ)
  | empty
deriving DecidableEq

/-- `pd.to_numeric(·, errors="coerce").fillna(0)` applied to one cell:
parseable values keep their numeric value, unparseable text and missing
cells become 0.  Total by construction — it can never raise. -/
def coerceCell : Cell → ℚ
  | .num q => q
  | .text (some q) => q
  | .text none => 0
  | .empty => 0

/-- `ensure_numeric` on one required numeric column of a table with `n` rows:
if the column is absent (`none`) it is created filled with 0
(`df[c] = 0`, line 54); if present, every cell is coerced (line 55). -/
def ensureNumericCol (col : Option (List Cell)) (n : ℕ) : List ℚ :=
  match col with
  | none => List.replicate n 0
  | some cells => cells.map coerceCell

/-! ## Measure Calculator (`compute_measures`, lines 58–77) -/

/-- One input activity row, restricted to the fields `compute_measures` reads.
`activityStatus` is the cell after `astype(str)` (a missing value
stringifies to `"nan"`); `denialCodeIsNull` is the negation of
`DenialCode.notna()`. -/
structure Row where
  activityIns : ℚ
  actRemitInsShare : ℚ
  actResub1RemitInsShare : ℚ
  actResub2RemitInsShare : ℚ
  actResub3RemitInsShare : ℚ
  tkbkAmountAct : ℚ
  activityStatus : String
  denialCodeIsNull : Bool
deriving DecidableEq

/-- `df["Paid"]` (lines 59–63): sum of the four remittance shares and the
take-back amount. -/
def paidOf (r : Row) : ℚ :=
  r.actRemitInsShare + r.actResub1RemitInsShare + r.actResub2RemitInsShare
    + r.actResub3RemitInsShare + r.tkbkAmountAct

/-- `mask_paid` (line 69): `Paid > 0`. -/
def maskPaid (r : Row) : Bool := decide (0 < paidOf r)

/-- `mask_reject` (line 70): `Paid == 0` and lower-cased status equals
`"rejected"` and `DenialCode` is non-null. -/
def maskReject (r : Row) : Bool :=
  decide (paidOf r = 0) && decide (lowerString r.activityStatus = "rejected")
    && (!r.denialCodeIsNull)

/-- `mask_balance` (line 71): `Paid == 0` and not `mask_reject`. -/
def maskBalance (r : Row) : Bool :=
  decide (paidOf r = 0) && !(maskReject r)

/-- The derived measure fields of one row. -/
structure MRow where
  paid : ℚ
  rejection : ℚ
  accepted : ℚ
  balance : ℚ
deriving DecidableEq

/-- `compute_measures` on one row.  The three derived fields are initialised
to 0.0 (line 65); the classifying assignments (lines 73–75) run only when
both the `ActivityStatus` and `DenialCode` columns are present in the table
(line 67), signalled by the two `Bool` flags. -/
def computeMeasuresRow (hasActivityStatus hasDenialCode : Bool) (r : Row) : MRow :=
  { paid := paidOf r
    rejection :=
      if hasActivityStatus && hasDenialCode && maskReject r then r.activityIns else 0
    accepted :=
      if hasActivityStatus && hasDenialCode && maskPaid r then r.activityIns - paidOf r else 0
    balance :=
      if hasActivityStatus && hasDenialCode && maskBalance r then r.activityIns else 0 }

/-! ## Aging Classifier (`add_aging`, lines 79–95) -/

/-- The five fixed aging buckets produced by `pd.cut` (line 94). -/
inductive Bucket where
  | d0to30
  | d31to45
  | d46to60
  | d61to90
  | over90
deriving DecidableEq

/-- The display label of each bucket (`labels`, line 93). -/
def Bucket.label : Bucket → String
  | .d0to30 => "0–30 Days"
  | .d31to45 => "31–45 Days"
  | .d46to60 => "46–60 Days"
  | .d61to90 => "61–90 Days"
  | .over90 => ">90 Days"

/-- `pd.cut(DaysDiff, bins=[-1, 30, 45, 60, 90, inf])` with the default
right-inclusive intervals: `(-1, 30]`, `(30, 45]`, `(45, 60]`, `(60, 90]`,
`(90, ∞)`.  A value outside every interval (here `d ≤ -1`) gets no bucket
(NaN in pandas). -/
def agingBucket (d : ℤ) : Option Bucket :=
  if -1 < d ∧ d ≤ 30 then some .d0to30
  else if 30 < d ∧ d ≤ 45 then some .d31to45
  else if 45 < d ∧ d ≤ 60 then some .d46to60
  else if 60 < d ∧ d ≤ 90 then some .d61to90
  else if 90 < d then some .over90
  else none

/-- A missing `DaysDiff` (missing reference date) yields no bucket. -/
def assignBucket (daysDiff : Option ℤ) : Option Bucket :=
  daysDiff.bind agingBucket

/-- The column order of the pivot (`labels`, lines 93 and 106). -/
def allBuckets : List Bucket :=
  [.d0to30, .d31to45, .d46to60, .d61to90, .over90]

/-- `today` in `add_aging` (line 89) is taken from the wall clock
(`dt.today()`); no invocation parameter overrides it. -/
def agingToday (wallClockToday : ℤ) : ℤ := wallClockToday

/-- `DaysDiff` (line 90): wall-clock today minus the reference date. -/
def daysDiff (wallClockToday refDate : ℤ) : ℤ := agingToday wallClockToday - refDate

/-! ## Invocation interface (`parse_args`, lines 22–37)

`argparse` accepts exactly the arguments registered with `add_argument`
(lines 26–28) and rejects anything else. -/

/-- The registered invocation parameters: the positional source path and the
required `--out` destination path.  Nothing else is registered. -/
def parseArgsSpec : List String := ["input_xlsx", "--out"]

/-! ## Aggregator (`build_insurance_totals`, lines 121–138, and
`build_balance_aging_summary`, lines 105–119)

A fully processed row of the final frame, restricted to the columns the
aggregation reads. -/
structure FRow where
  insurance : String
  activityIns : ℚ
  paid : ℚ
  rejection : ℚ
  accepted : ℚ
  balance : ℚ
  bucket : Option Bucket
deriving DecidableEq

/-- The final-frame row of one input row: `compute_measures` output (with
both classification columns present) together with its payer and bucket. -/
def rowToFRow (ins : String) (b : Option Bucket) (r : Row) : FRow :=
  let m := computeMeasuresRow true true r
  { insurance := ins, activityIns := r.activityIns, paid := m.paid,
    rejection := m.rejection, accepted := m.accepted, balance := m.balance,
    bucket := b }

/-- The payer values in first-appearance order — pandas' insertion order of
group keys, as `groupby(sort=False)` would produce it. -/
def firstAppearances : List String → List String
  | [] => []
  | a :: l => a :: (firstAppearances l).filter (fun b => !(decide (b = a)))

/-- The group keys of `df.groupby("Insurance")` (line 123): pandas'
`groupby` default `sort=True` returns the distinct keys in ascending
code-point order. -/
def payersSorted (rows : List FRow) : List String :=
  ((rows.map (·.insurance)).dedup).insertionSort (fun a b => strLe a b)

/-- Sum of a measure over one payer's rows. -/
def sumByPayer (rows : List FRow) (p : String) (f : FRow → ℚ) : ℚ :=
  ((rows.filter (fun r => decide (r.insurance = p))).map f).sum

/-- One row of the Insurance Totals table (column order of line 128). -/
structure TRow where
  insurance : String
  netAmount : ℚ
  paid : ℚ
  balance : ℚ
  rejected : ℚ
  accepted : ℚ
deriving DecidableEq

/-- The per-payer aggregate row (lines 122–128): Net Amount is the summed
`ActivityIns`, Rejected the summed `Rejection`. -/
def payerTotalsRow (rows : List FRow) (p : String) : TRow :=
  { insurance := p
    netAmount := sumByPayer rows p (·.activityIns)
    paid := sumByPayer rows p (·.paid)
    balance := sumByPayer rows p (·.balance)
    rejected := sumByPayer rows p (·.rejection)
    accepted := sumByPayer rows p (·.accepted) }

/-- `build_insurance_totals` (lines 121–138): one aggregate row per group
key, then the "Grand Total" row — the column-wise sums of the payer rows —
concatenated last (line 137). -/
def buildInsuranceTotals (rows : List FRow) : List TRow :=
  let body := (payersSorted rows).map (payerTotalsRow rows)
  body ++ [{ insurance := "Grand Total"
             netAmount := (body.map (·.netAmount)).sum
             paid := (body.map (·.paid)).sum
             balance := (body.map (·.balance)).sum
             rejected := (body.map (·.rejected)).sum
             accepted := (body.map (·.accepted)).sum }]

/-- `balance_df` (line 193): the rows with `Balance > 0`; this subset is
both the pivot source and the Balance Aging Detail sheet (line 203). -/
def balanceDetail (rows : List FRow) : List FRow :=
  rows.filter (fun r => decide (0 < r.balance))

/-- One cell of the pivot (lines 107–115): the summed `Balance` of the rows
of payer `p` in bucket `b`; an empty cell is `fill_value=0`. -/
def pivotCell (rows : List FRow) (p : String) (b : Bucket) : ℚ :=
  ((rows.filter (fun r => decide (r.insurance = p) && decide (r.bucket = some b))).map
      (·.balance)).sum

/-- The pivot's row index: ascending distinct payers among the rows with an
assigned bucket (`pivot_table` groups by Insurance and AgingBucket and drops
rows whose bucket is NaN, then sorts the index). -/
def summaryPayers (rows : List FRow) : List String :=
  (((rows.filter (fun r => r.bucket.isSome)).map (·.insurance)).dedup).insertionSort
    (fun a b => strLe a b)

/-- One row of the Balance Aging Summary: the five bucket cells in label
order plus the "Grand Total" cell. -/
structure SRow where
  insurance : String
  cells : List ℚ
  grandTotal : ℚ
deriving DecidableEq

/-- A payer's pivot row with its "Grand Total" column cell, the row-wise sum
across the five buckets (line 116). -/
def summaryBodyRow (rows : List FRow) (p : String) : SRow :=
  let cs := allBuckets.map (pivotCell rows p)
  { insurance := p, cells := cs, grandTotal := cs.sum }

/-- The payer rows of the Balance Aging Summary. -/
def summaryBody (rows : List FRow) : List SRow :=
  (summaryPayers rows).map (summaryBodyRow rows)

/-- The "Grand Total" row (line 117): the column-wise sum over the payer
rows, taken after the "Grand Total" column was added, so its own Grand Total
cell sums the payer rows' Grand Total cells. -/
def summaryGrandRow (rows : List FRow) : SRow :=
  let body := summaryBody rows
  { insurance := "Grand Total"
    cells := (List.range allBuckets.length).map
      (fun i => (body.map (fun s => s.cells.getD i 0)).sum)
    grandTotal := (body.map (·.grandTotal)).sum }

/-- `build_balance_aging_summary` (lines 105–119): payer rows then the
"Grand Total" row. -/
def buildBalanceAgingSummary (rows : List FRow) : List SRow :=
  summaryBody rows ++ [summaryGrandRow rows]

/-! ## Example rows used by counterexamples and witnesses -/

/-- A row paid in full: `Paid = 100 = ActivityIns`. -/
def exRowFullyPaid : Row := ⟨100, 100, 0, 0, 0, 0, "paid", true⟩

/-- A partially paid row: `Paid = 40`, `ActivityIns = 100`. -/
def exRowPartPaid : Row := ⟨100, 40, 0, 0, 0, 0, "paid", true⟩

/-- A rejected row: zero payment, status "Rejected", denial code present. -/
def exRowRejected : Row := ⟨200, 0, 0, 0, 0, 0, "Rejected", false⟩

/-- A net take-back row: `Paid = -5 < 0`. -/
def exRowTakeback : Row := ⟨100, 0, 0, 0, 0, -5, "pending", true⟩

/-! ## Mask lemmas -/

lemma maskReject_eq_false_of_paid_ne (r : Row) (h : paidOf r ≠ 0) :
    maskReject r = false := by
  simp [maskReject, h]

lemma maskBalance_eq_false_of_paid_ne (r : Row) (h : paidOf r ≠ 0) :
    maskBalance r = false := by
  simp [maskBalance, h]

lemma maskBalance_eq_false_of_reject (r : Row) (h : maskReject r = true) :
    maskBalance r = false := by
  simp [maskBalance, h]

/-- The three classification masks are pairwise disjoint, so at most one of
the three derived fields is ever assigned. -/
lemma measures_atMostOne (hS hD : Bool) (r : Row) :
    ((computeMeasuresRow hS hD r).rejection = 0 ∧ (computeMeasuresRow hS hD r).accepted = 0) ∨
    ((computeMeasuresRow hS hD r).rejection = 0 ∧ (computeMeasuresRow hS hD r).balance = 0) ∨
    ((computeMeasuresRow hS hD r).accepted = 0 ∧ (computeMeasuresRow hS hD r).balance = 0) := by
  cases hSD : hS && hD with
  | false => exact Or.inl (by simp [computeMeasuresRow, hSD])
  | true =>
    by_cases hp : maskPaid r = true
    · have hne : paidOf r ≠ 0 := by
        have := of_decide_eq_true (by simpa [maskPaid] using hp)
        exact ne_of_gt this
      exact Or.inr (Or.inl (by
        simp [computeMeasuresRow, hSD, maskReject_eq_false_of_paid_ne r hne,
          maskBalance_eq_false_of_paid_ne r hne]))
    · by_cases hrj : maskReject r = true
      · exact Or.inr (Or.inr (by
          simp [computeMeasuresRow, hSD, hp, maskBalance_eq_false_of_reject r hrj]))
      · exact Or.inl (by
          simp [computeMeasuresRow, hSD, hp, hrj])

/-! ## Order facts about the code-point comparison -/

lemma charsLe_total : ∀ as bs : List Char, charsLe as bs = true ∨ charsLe bs as = true := by
  intro as
  induction as with
  | nil => intro bs; exact Or.inl rfl
  | cons a as ih =>
    intro bs
    cases bs with
    | nil => exact Or.inr rfl
    | cons b bs =>
      by_cases hab : a.toNat < b.toNat
      · exact Or.inl (by simp [charsLe, hab])
      · by_cases hba : b.toNat < a.toNat
        · exact Or.inr (by simp [charsLe, hba])
        · rcases ih bs with h | h
          · exact Or.inl (by simp [charsLe, hab, hba, h])
          · exact Or.inr (by simp [charsLe, hab, hba, h])

lemma charsLe_trans : ∀ as bs cs : List Char,
    charsLe as bs = true → charsLe bs cs = true → charsLe as cs = true := by
  intro as
  induction as with
  | nil => intro bs cs _ _; rfl
  | cons a as ih =>
    intro bs cs h1 h2
    cases bs with
    | nil => simp [charsLe] at h1
    | cons b bs =>
      cases cs with
      | nil => simp [charsLe] at h2
      | cons c cs =>
        by_cases hab : a.toNat < b.toNat
        · by_cases hbc : b.toNat < c.toNat
          · simp [charsLe, Nat.lt_trans hab hbc]
          · by_cases hcb : c.toNat < b.toNat
            · simp [charsLe, hbc, hcb] at h2
            · have hbceq : b.toNat = c.toNat := Nat.le_antisymm (Nat.not_lt.mp hcb) (Nat.not_lt.mp hbc)
              simp [charsLe, hbceq ▸ hab]
        · by_cases hba : b.toNat < a.toNat
          · simp [charsLe, hab, hba] at h1
          · have habeq : a.toNat = b.toNat := Nat.le_antisymm (Nat.not_lt.mp hba) (Nat.not_lt.mp hab)
            by_cases hbc : b.toNat < c.toNat
            · simp [charsLe, habeq ▸ hbc]
            · by_cases hcb : c.toNat < b.toNat
              · simp [charsLe, hbc, hcb] at h2
              · have hbceq : b.toNat = c.toNat :=
                  Nat.le_antisymm (Nat.not_lt.mp hcb) (Nat.not_lt.mp hbc)
                have h1' : charsLe as bs = true := by simpa [charsLe, hab, hba] using h1
                have h2' : charsLe bs cs = true := by simpa [charsLe, hbc, hcb] using h2
                have hac : ¬ a.toNat < c.toNat := by omega
                have hca : ¬ c.toNat < a.toNat := by omega
                simp [charsLe, hac, hca, ih bs cs h1' h2']

instance : IsTotal String (fun a b => strLe a b) :=
  ⟨fun a b => charsLe_total a.data b.data⟩

instance : IsTrans String (fun a b => strLe a b) :=
  ⟨fun a b c => charsLe_trans a.data b.data c.data⟩

/-! ## Claims -/

/-- C1: with both `ActivityStatus` and `DenialCode` columns present, every
row has at most one of Rejection, Accepted, Balance non-zero, and every row
with `Paid > 0` satisfies `Accepted = ActivityIns − Paid` exactly (no
clamping, so Accepted may be negative). -/
theorem c1_at_most_one_and_paid_formula (r : Row) :
    (((computeMeasuresRow true true r).rejection = 0 ∧
        (computeMeasuresRow true true r).accepted = 0) ∨
     ((computeMeasuresRow true true r).rejection = 0 ∧
        (computeMeasuresRow true true r).balance = 0) ∨
     ((computeMeasuresRow true true r).accepted = 0 ∧
        (computeMeasuresRow true true r).balance = 0)) ∧
    (0 < paidOf r →
      (computeMeasuresRow true true r).accepted = r.activityIns - paidOf r) := by
  refine ⟨measures_atMostOne true true r, fun h => ?_⟩
  have hp : maskPaid r = true := by simp [maskPaid, h]
  simp [computeMeasuresRow, hp]

/-- Witness for C1 at a concrete partially paid row. -/
theorem c1_at_most_one_and_paid_formula_witness :
    0 < paidOf exRowPartPaid ∧
    (computeMeasuresRow true true exRowPartPaid).accepted =
      exRowPartPaid.activityIns - paidOf exRowPartPaid :=
  ⟨by norm_num [paidOf, exRowPartPaid],
   (c1_at_most_one_and_paid_formula exRowPartPaid).2 (by norm_num [paidOf, exRowPartPaid])⟩

/-- C2 counterexample: a row with `DaysDiff = -1` (future-dated reference)
is assigned no bucket at all, not "0–30 Days" — the lower bin edge `-1` is
exclusive, so values at or below `-1` fall outside every interval. -/
theorem c2_counterexample_negative_daysdiff :
    agingBucket (-1) = none ∧ agingBucket (-1) ≠ some Bucket.d0to30 := by
  decide

/-- C2 (amended): the buckets have inclusive upper edges — `DaysDiff = 30`
gets "0–30 Days", `31` gets "31–45 Days", `90` gets "61–90 Days", `91` gets
">90 Days" — and `DaysDiff = 0` gets "0–30 Days", but a strictly negative
`DaysDiff` (at or below the exclusive lower edge `-1`) gets no bucket. -/
theorem c2_aging_bucket_edges :
    ((agingBucket 30).map Bucket.label = some "0–30 Days" ∧
     (agingBucket 31).map Bucket.label = some "31–45 Days" ∧
     (agingBucket 90).map Bucket.label = some "61–90 Days" ∧
     (agingBucket 91).map Bucket.label = some ">90 Days" ∧
     (agingBucket 0).map Bucket.label = some "0–30 Days") ∧
    ∀ d : ℤ, d ≤ -1 → agingBucket d = none := by
  refine ⟨by decide, fun d hd => ?_⟩
  unfold agingBucket
  rw [if_neg (by omega), if_neg (by omega), if_neg (by omega), if_neg (by omega),
    if_neg (by omega)]

/-- Witness for C2 (amended) at `DaysDiff = -5`. -/
theorem c2_aging_bucket_edges_witness : agingBucket (-5) = none :=
  c2_aging_bucket_edges.2 (-5) (by decide)

/-- C3 counterexample: a row paid exactly in full (`Paid = ActivityIns =
100`) has Accepted `= 100 − 100 = 0`, so all three derived fields are zero
and none is non-zero — "exactly one non-zero" fails. -/
theorem c3_counterexample_fully_paid :
    ¬ (((computeMeasuresRow true true exRowFullyPaid).rejection ≠ 0 ∧
         (computeMeasuresRow true true exRowFullyPaid).accepted = 0 ∧
         (computeMeasuresRow true true exRowFullyPaid).balance = 0) ∨
       ((computeMeasuresRow true true exRowFullyPaid).rejection = 0 ∧
         (computeMeasuresRow true true exRowFullyPaid).accepted ≠ 0 ∧
         (computeMeasuresRow true true exRowFullyPaid).balance = 0) ∨
       ((computeMeasuresRow true true exRowFullyPaid).rejection = 0 ∧
         (computeMeasuresRow true true exRowFullyPaid).accepted = 0 ∧
         (computeMeasuresRow true true exRowFullyPaid).balance ≠ 0)) := by
  have h : computeMeasuresRow true true exRowFullyPaid = ⟨100, 0, 0, 0⟩ := by
    simp [computeMeasuresRow, maskPaid, maskReject, maskBalance, paidOf,
      exRowFullyPaid, lowerString]
  rw [h]
  norm_num

/-- C3 (amended): for every row, after the Measure Calculator, at most one
of Rejection, Accepted, Balance is non-zero and the others equal 0.0 —
"exactly one" fails for fully paid, overpaid-to-zero, zero-amount and
negative-`Paid` rows. -/
theorem c3_at_most_one_nonzero (hS hD : Bool) (r : Row) :
    ((computeMeasuresRow hS hD r).rejection = 0 ∧
       (computeMeasuresRow hS hD r).accepted = 0) ∨
    ((computeMeasuresRow hS hD r).rejection = 0 ∧
       (computeMeasuresRow hS hD r).balance = 0) ∨
    ((computeMeasuresRow hS hD r).accepted = 0 ∧
       (computeMeasuresRow hS hD r).balance = 0) :=
  measures_atMostOne hS hD r

/-- C4: if the `ActivityStatus` column or the `DenialCode` column is absent
from the table, classification is disabled globally: every row's Rejection,
Accepted and Balance all stay 0. -/
theorem c4_missing_column_disables_classification (hS hD : Bool) (r : Row)
    (h : hS = false ∨ hD = false) :
    (computeMeasuresRow hS hD r).rejection = 0 ∧
    (computeMeasuresRow hS hD r).accepted = 0 ∧
    (computeMeasuresRow hS hD r).balance = 0 := by
  rcases h with h | h <;> subst h <;> simp [computeMeasuresRow]

/-- Witness for C4: a rejected-looking row stays unclassified when the
`ActivityStatus` column is absent. -/
theorem c4_missing_column_disables_classification_witness :
    (computeMeasuresRow false true exRowRejected).rejection = 0 ∧
    (computeMeasuresRow false true exRowRejected).accepted = 0 ∧
    (computeMeasuresRow false true exRowRejected).balance = 0 :=
  c4_missing_column_disables_classification false true exRowRejected (Or.inl rfl)

/-- C6 counterexample: the invocation interface registers exactly the
source path and `--out`; there is no as-of date parameter, and `DaysDiff`
is always wall-clock today minus the reference date. -/
theorem c6_counterexample_no_asof_argument :
    parseArgsSpec = ["input_xlsx", "--out"] ∧
    "--as-of" ∉ parseArgsSpec ∧ "--date" ∉ parseArgsSpec ∧
    daysDiff 100 40 = 100 - 40 := by
  refine ⟨rfl, by decide, by decide, rfl⟩

/-- C6 (amended): the invocation interface accepts exactly a source path
and a `--out` destination; no injected as-of date exists, and the Aging
Classifier always computes `DaysDiff` relative to the wall-clock date. -/
theorem c6_interface_wall_clock_only :
    parseArgsSpec = ["input_xlsx", "--out"] ∧
    ∀ wallClockToday refDate : ℤ,
      daysDiff wallClockToday refDate = agingToday wallClockToday - refDate :=
  ⟨rfl, fun _ _ => rfl⟩

/-- C7: for each required numeric column the Loader creates it filled with
0 when absent; when present it coerces each cell, keeping parseable values
and mapping unparseable text and missing cells to 0.  `coerceCell` and
`ensureNumericCol` are total functions, so no input can raise. -/
theorem c7_numeric_coercion :
    (∀ n : ℕ, ensureNumericCol none n = List.replicate n 0) ∧
    (∀ (cells : List Cell) (n : ℕ),
        ensureNumericCol (some cells) n = cells.map coerceCell) ∧
    (∀ q : ℚ, coerceCell (Cell.num q) = q) ∧
    (∀ q : ℚ, coerceCell (Cell.text (some q)) = q) ∧
    coerceCell (Cell.text none) = 0 ∧
    coerceCell Cell.empty = 0 :=
  ⟨fun _ => rfl, fun _ _ => rfl, fun _ => rfl, fun _ => rfl, rfl, rfl⟩

/-- C9: a row with `Paid < 0` (take-backs exceeding remittances) matches no
classification mask even with both columns present: Rejection, Accepted and
Balance all stay 0, so the row contributes nothing to the Balance, Rejected
or Accepted columns of Insurance Totals. -/
theorem c9_negative_paid_unclassified (r : Row) (h : paidOf r < 0) :
    ((computeMeasuresRow true true r).rejection = 0 ∧
     (computeMeasuresRow true true r).accepted = 0 ∧
     (computeMeasuresRow true true r).balance = 0) ∧
    ∀ (ins : String) (b : Option Bucket),
      (payerTotalsRow [rowToFRow ins b r] ins).balance = 0 ∧
      (payerTotalsRow [rowToFRow ins b r] ins).rejected = 0 ∧
      (payerTotalsRow [rowToFRow ins b r] ins).accepted = 0 := by
  have hne : paidOf r ≠ 0 := ne_of_lt h
  have hp : maskPaid r = false := by
    simp [maskPaid, not_lt.mpr (le_of_lt h)]
  have hm : (computeMeasuresRow true true r).rejection = 0 ∧
      (computeMeasuresRow true true r).accepted = 0 ∧
      (computeMeasuresRow true true r).balance = 0 := by
    simp [computeMeasuresRow, hp, maskReject_eq_false_of_paid_ne r hne,
      maskBalance_eq_false_of_paid_ne r hne]
  refine ⟨hm, fun ins b => ?_⟩
  simp [payerTotalsRow, sumByPayer, rowToFRow, hm.1, hm.2.1, hm.2.2]

/-- Witness for C9 at a concrete net take-back row (`Paid = -5`). -/
theorem c9_negative_paid_unclassified_witness :
    paidOf exRowTakeback < 0 ∧
    ((computeMeasuresRow true true exRowTakeback).rejection = 0 ∧
     (computeMeasuresRow true true exRowTakeback).accepted = 0 ∧
     (computeMeasuresRow true true exRowTakeback).balance = 0) :=
  ⟨by norm_num [paidOf, exRowTakeback],
   (c9_negative_paid_unclassified exRowTakeback
      (by norm_num [paidOf, exRowTakeback])).1⟩

/-- A processed row for payer "B", appearing first in the input. -/
def exFRowB : FRow := ⟨"B", 10, 0, 0, 0, 10, some .d0to30⟩

/-- A processed row for payer "A", appearing second in the input. -/
def exFRowA : FRow := ⟨"A", 20, 0, 0, 0, 20, some .over90⟩

/-- C5 counterexample: with input rows for payers "B" then "A" (in that
first-appearance order), the Insurance Totals rows come out as
["A", "B", "Grand Total"] — `groupby` sorts the payer keys — not in the
claimed insertion order ["B", "A", "Grand Total"]. -/
theorem c5_counterexample_payers_are_sorted :
    (buildInsuranceTotals [exFRowB, exFRowA]).map (·.insurance) = ["A", "B", "Grand Total"] ∧
    firstAppearances ([exFRowB, exFRowA].map (·.insurance)) = ["B", "A"] ∧
    (buildInsuranceTotals [exFRowB, exFRowA]).map (·.insurance) ≠
      firstAppearances ([exFRowB, exFRowA].map (·.insurance)) ++ ["Grand Total"] := by
  refine ⟨?_, by decide, ?_⟩ <;> decide

/-- C5 (amended): in Insurance Totals the payer rows appear in ascending
code-point order of the payer name (pandas' `groupby` sorts its keys, not
insertion order), and the "Grand Total" row is always the last row. -/
theorem c5_payers_sorted_grand_total_last (rows : List FRow) :
    (buildInsuranceTotals rows).map (·.insurance) = payersSorted rows ++ ["Grand Total"] ∧
    List.Sorted (fun a b => strLe a b) (payersSorted rows) ∧
    ((buildInsuranceTotals rows).map (·.insurance)).getLast? = some "Grand Total" := by
  have h1 : (buildInsuranceTotals rows).map (·.insurance) =
      payersSorted rows ++ ["Grand Total"] := by
    simp only [buildInsuranceTotals, List.map_append, List.map_map, List.map_cons,
      List.map_nil]
    congr 1
    exact (List.map_congr_left fun p _ => rfl).trans (List.map_id _)
  refine ⟨h1, List.sorted_insertionSort _ _, ?_⟩
  rw [h1]
  exact List.getLast?_concat _

/-! ## Sum-partition lemmas for the pivot -/

lemma sum_map_ite_of_not_mem {κ : Type} [DecidableEq κ] {k : κ} (c : ℚ) :
    ∀ P : List κ, k ∉ P → (P.map fun p => if k = p then c else 0).sum = 0 := by
  intro P
  induction P with
  | nil => intro _; rfl
  | cons p P ih =>
    intro h
    have hk : k ≠ p := fun he => h (he ▸ List.mem_cons_self p P)
    have hP : k ∉ P := fun hm => h (List.mem_cons_of_mem p hm)
    simp [hk, ih hP]

lemma sum_map_ite_of_mem {κ : Type} [DecidableEq κ] {k : κ} (c : ℚ) :
    ∀ P : List κ, P.Nodup → k ∈ P → (P.map fun p => if k = p then c else 0).sum = c := by
  intro P
  induction P with
  | nil => intro _ h; cases h
  | cons p P ih =>
    intro hnd hm
    rcases List.mem_cons.mp hm with he | hm'
    · subst he
      have hnotin : k ∉ P := (List.nodup_cons.mp hnd).1
      simp [sum_map_ite_of_not_mem c P hnotin]
    · have hk : k ≠ p := by
        intro he
        exact (List.nodup_cons.mp hnd).1 (he ▸ hm')
      simp [hk, ih (List.nodup_cons.mp hnd).2 hm']

/-- Summing a measure group-by-group over a duplicate-free list of keys that
covers every element recovers the total sum. -/
lemma sum_over_keys {α κ : Type} [DecidableEq κ] (key : α → κ) (g : α → ℚ)
    (P : List κ) (hP : P.Nodup) :
    ∀ l : List α, (∀ a ∈ l, key a ∈ P) →
      (P.map fun p => ((l.filter fun a => decide (key a = p)).map g).sum).sum =
        (l.map g).sum := by
  intro l
  induction l with
  | nil => intro _; simp
  | cons a l ih =>
    intro hcov
    have hk : key a ∈ P := hcov a (List.mem_cons_self a l)
    have hrest : ∀ x ∈ l, key x ∈ P := fun x hx => hcov x (List.mem_cons_of_mem a hx)
    have hmap : (P.map fun p => (((a :: l).filter fun x => decide (key x = p)).map g).sum) =
        P.map fun p =>
          (if key a = p then g a else 0) +
            ((l.filter fun x => decide (key x = p)).map g).sum := by
      apply List.map_congr_left
      intro p _
      by_cases h : key a = p <;> simp [List.filter_cons, h]
    rw [hmap, List.sum_map_add, sum_map_ite_of_mem (g a) P hP hk, ih hrest]
    simp

/-- The full five-bucket column list, wrapped in `some`, is duplicate-free
and contains every assigned bucket. -/
lemma mem_allBuckets_some {b : Bucket} : some b ∈ allBuckets.map some := by
  cases b <;> decide

/-- The Grand Total cell of one payer row of the summary equals the summed
balance of that payer's bucketed rows. -/
lemma summaryBodyRow_grandTotal (rows : List FRow) (p : String) :
    (summaryBodyRow rows p).grandTotal =
      ((rows.filter fun r => decide (r.insurance = p) && r.bucket.isSome).map
          (·.balance)).sum := by
  have hnd : (allBuckets.map some : List (Option Bucket)).Nodup := by decide
  have hcov : ∀ r ∈ rows.filter fun r => decide (r.insurance = p) && r.bucket.isSome,
      r.bucket ∈ allBuckets.map some := by
    intro r hr
    have hs : r.bucket.isSome := by
      have := (List.mem_filter.mp hr).2
      exact (Bool.and_elim_right this)
    rcases Option.isSome_iff_exists.mp hs with ⟨b, hb⟩
    rw [hb]
    exact mem_allBuckets_some
  have hkey := sum_over_keys (fun r : FRow => r.bucket) (fun r : FRow => r.balance)
    (allBuckets.map some) hnd
    (rows.filter fun r => decide (r.insurance = p) && r.bucket.isSome) hcov
  have hcell : ∀ b : Bucket,
      pivotCell rows p b =
        (((rows.filter fun r => decide (r.insurance = p) && r.bucket.isSome).filter
            fun r => decide (r.bucket = some b)).map (·.balance)).sum := by
    intro b
    unfold pivotCell
    rw [List.filter_filter]
    congr 1
    congr 1
    apply List.filter_congr
    intro r _
    cases hb : r.bucket <;> by_cases hi : r.insurance = p <;>
      simp [hb, hi, Option.isSome]
  calc (summaryBodyRow rows p).grandTotal
      = (allBuckets.map fun b => pivotCell rows p b).sum := rfl
    _ = ((allBuckets.map some).map fun ob =>
          (((rows.filter fun r => decide (r.insurance = p) && r.bucket.isSome).filter
              fun r => decide (r.bucket = ob)).map (·.balance)).sum).sum := by
        rw [List.map_map]
        apply congrArg
        apply List.map_congr_left
        intro b _
        exact hcell b
    _ = ((rows.filter fun r => decide (r.insurance = p) && r.bucket.isSome).map
          (·.balance)).sum := hkey

/-- The Grand Total row's Grand Total cell equals the summed balance of all
bucketed rows of the pivot source. -/
lemma summaryGrandRow_grandTotal (rows : List FRow) :
    (summaryGrandRow rows).grandTotal =
      ((rows.filter fun r => r.bucket.isSome).map (·.balance)).sum := by
  have hnd : (summaryPayers rows).Nodup :=
    (List.perm_insertionSort _ _).symm.nodup (List.nodup_dedup _)
  have hcov : ∀ r ∈ rows.filter fun r => r.bucket.isSome,
      r.insurance ∈ summaryPayers rows := by
    intro r hr
    have : r.insurance ∈ ((rows.filter fun r => r.bucket.isSome).map (·.insurance)) :=
      List.mem_map_of_mem _ hr
    have : r.insurance ∈ ((rows.filter fun r => r.bucket.isSome).map (·.insurance)).dedup :=
      List.mem_dedup.mpr this
    exact (List.mem_insertionSort _).mpr this
  have hkey := sum_over_keys (fun r : FRow => r.insurance) (fun r : FRow => r.balance)
    (summaryPayers rows) hnd (rows.filter fun r => r.bucket.isSome) hcov
  have hterm : ∀ p ∈ summaryPayers rows,
      (summaryBodyRow rows p).grandTotal =
        (((rows.filter fun r => r.bucket.isSome).filter
            fun r => decide (r.insurance = p)).map (·.balance)).sum := by
    intro p _
    rw [summaryBodyRow_grandTotal, List.filter_filter]
  calc (summaryGrandRow rows).grandTotal
      = ((summaryPayers rows).map fun p => (summaryBodyRow rows p).grandTotal).sum := by
        simp only [summaryGrandRow, summaryBody, List.map_map]
        rfl
    _ = ((summaryPayers rows).map fun p =>
          (((rows.filter fun r => r.bucket.isSome).filter
              fun r => decide (r.insurance = p)).map (·.balance)).sum).sum := by
        apply congrArg
        exact List.map_congr_left hterm
    _ = ((rows.filter fun r => r.bucket.isSome).map (·.balance)).sum := hkey

/-- C8: in the Balance Aging Summary, each payer row's Grand Total cell is
the row-wise sum of its five bucket cells; the Grand Total row is the
column-wise sum over the payer rows computed after the Grand Total column
was added, so its own Grand Total cell sums the payer rows' Grand Total
cells — which equals the sum of all balances aggregated into the pivot
(the bucketed rows of the `Balance > 0` set). -/
theorem c8_summary_grand_total_sums (rows : List FRow) :
    ((summaryBody (balanceDetail rows)).map (·.grandTotal) =
       (summaryBody (balanceDetail rows)).map fun s => s.cells.sum) ∧
    ((summaryGrandRow (balanceDetail rows)).cells =
       (List.range allBuckets.length).map fun i =>
         ((summaryBody (balanceDetail rows)).map fun s => s.cells.getD i 0).sum) ∧
    ((summaryGrandRow (balanceDetail rows)).grandTotal =
       ((summaryBody (balanceDetail rows)).map (·.grandTotal)).sum) ∧
    ((summaryGrandRow (balanceDetail rows)).grandTotal =
       (((balanceDetail rows).filter fun r => r.bucket.isSome).map (·.balance)).sum) := by
  refine ⟨?_, rfl, rfl, summaryGrandRow_grandTotal (balanceDetail rows)⟩
  unfold summaryBody
  rw [List.map_map, List.map_map]
  exact List.map_congr_left fun p _ => rfl

/-- A `Balance > 0` row with no aging bucket (missing or unparseable
reference date). -/
def exFRowUnbucketed : FRow := ⟨"X", 300, 0, 0, 0, 300, none⟩

/-- C10: a row with `Balance > 0` but no bucket assignment is kept in the
Balance Aging Detail table yet feeds no cell of the Balance Aging Summary,
so on this input the Summary's Grand Total (0) is strictly less than the
sum of Balance over the Detail rows (300). -/
theorem c10_unbucketed_in_detail_not_summary :
    balanceDetail [exFRowUnbucketed] = [exFRowUnbucketed] ∧
    summaryBody (balanceDetail [exFRowUnbucketed]) = [] ∧
    (summaryGrandRow (balanceDetail [exFRowUnbucketed])).grandTotal = 0 ∧
    ((balanceDetail [exFRowUnbucketed]).map (·.balance)).sum = 300 ∧
    (summaryGrandRow (balanceDetail [exFRowUnbucketed])).grandTotal <
      ((balanceDetail [exFRowUnbucketed]).map (·.balance)).sum := by
  have hdet : balanceDetail [exFRowUnbucketed] = [exFRowUnbucketed] := by
    simp [balanceDetail, exFRowUnbucketed]
  have hbody : summaryBody (balanceDetail [exFRowUnbucketed]) = [] := by
    rw [hdet]
    simp [summaryBody, summaryPayers, exFRowUnbucketed]
  have hgt : (summaryGrandRow (balanceDetail [exFRowUnbucketed])).grandTotal = 0 := by
    simp [summaryGrandRow, hbody]
  have hsum : ((balanceDetail [exFRowUnbucketed]).map (·.balance)).sum = 300 := by
    rw [hdet]
    simp [exFRowUnbucketed]
  exact ⟨hdet, hbody, hgt, hsum, by rw [hgt, hsum]; norm_num⟩

end ExclusiveReport
